import Mathlib

/-!
Verification of the MathBot QA harness (`main.py`) against its specification.

The development shallowly embeds the program's core logic:

* Python strings are Lean `String`s; the string operations the program uses
  (`strip`, `split(", ")`, `startswith`, `endswith`, slicing `[1:-1]`,
  `str.isdigit`, `int(...)`) are modelled character-by-character on `List Char`
  (ASCII; the program only ever feeds it ASCII model output).
* Python numbers: `int` is `Int` (arbitrary precision, exact); `float` is the
  exact rational value of the IEEE-754 binary64 double, kept as `ℚ` and
  re-rounded with `roundDouble` (round to nearest, ties to even, 53-bit
  mantissa) after every float-producing operation.  Exponent range is not
  bounded (no infinities/subnormals: the inputs of interest stay far inside
  the normal range) and signed zero is not distinguished.
* Python's `eval` on the arithmetic fragment the extraction prompt asks for
  (integer and decimal literals, `+ - * /`, `**` with integer exponents,
  unary sign, parentheses, tuples built with commas) is embedded as a
  tokenizer, a precedence parser and an evaluator; any name evaluates to a
  `NameError` (the expressions the prompt requests are purely numeric).
* The model backend is an oracle: a list of successive reply texts.
-/

attribute [local semireducible] Rat.mul Rat.add Rat.sub Rat.inv Rat.ofScientific

set_option maxRecDepth 100000

namespace MathBot

/-! ## Python string primitives -/

/-- Python `str.strip()` on ASCII text: whitespace removed from both ends. -/
def pyStripL (s : List Char) : List Char :=
  ((s.dropWhile Char.isWhitespace).reverse.dropWhile Char.isWhitespace).reverse

/-- Python `str.strip()` lifted to `String`. -/
def pyStrip (s : String) : String := String.mk (pyStripL s.data)

/-- Python `split(", ")`: left-to-right, non-overlapping occurrences of the
two-character separator comma-space cut the string. -/
def splitCommaSpace : List Char → List Char → List (List Char)
  | ',' :: ' ' :: rest, acc => acc.reverse :: splitCommaSpace rest []
  | c :: rest, acc => splitCommaSpace rest (c :: acc)
  | [], acc => [acc.reverse]

/-- Python `"\n".join(lines)`. -/
def joinNewlines : List (List Char) → List Char
  | [] => []
  | [l] => l
  | l :: ls => l ++ '\n' :: joinNewlines ls

/-- Python slice `s[1:-1]`: everything but the first and the last character. -/
def pyInnerL (s : List Char) : List Char := (s.drop 1).dropLast

/-- Python `str.startswith(p)`. -/
def pyStartsWith (s p : String) : Bool := p.data.isPrefixOf s.data

/-- Python `str.endswith(p)`. -/
def pyEndsWith (s p : String) : Bool := p.data.reverse.isPrefixOf s.data.reverse

/-- Python `str.isdigit()` on ASCII text: nonempty and all characters are
decimal digits.  (Python also accepts some non-ASCII digit characters;
those never reach this program and are not modelled.) -/
def pyIsDigit (s : String) : Bool := !s.data.isEmpty && s.data.all Char.isDigit

/-- Value of a string of decimal digits, as Python `int(...)` reads it
(leading zeros permitted there). -/
def pyToNat (s : String) : Nat :=
  s.data.foldl (fun acc c => 10 * acc + (c.toNat - '0'.toNat)) 0

/-! ## Exact binary64 model -/

/-- Floor of a rational, computably (`Int.fdiv` is floor division). -/
def ratFloor (q : ℚ) : ℤ := Int.fdiv q.num q.den

/-- Round a rational to the nearest integer, ties to even. -/
def roundHalfEven (q : ℚ) : ℤ :=
  let n := ratFloor q
  let f := q - (n : ℚ)
  if f < 1/2 then n
  else if 1/2 < f then n + 1
  else if n % 2 = 0 then n else n + 1

/-- Multiply by two until the value reaches `2^52` (fuelled). -/
def shiftUp : Nat → ℚ → ℤ → ℚ × ℤ
  | 0, q, s => (q, s)
  | f + 1, q, s => if q < 2 ^ 52 then shiftUp f (2 * q) (s + 1) else (q, s)

/-- Halve until the value drops below `2^53` (fuelled). -/
def shiftDown : Nat → ℚ → ℤ → ℚ × ℤ
  | 0, q, s => (q, s)
  | f + 1, q, s => if 2 ^ 53 ≤ q then shiftDown f (q / 2) (s - 1) else (q, s)

/-- Integer power of two as a rational (negative exponents allowed). -/
def pow2 (s : ℤ) : ℚ :=
  if 0 ≤ s then ((2 ^ s.toNat : ℕ) : ℚ) else 1 / ((2 ^ (-s).toNat : ℕ) : ℚ)

/-- The IEEE-754 binary64 double nearest to `q` (round to nearest, ties to
even), as an exact rational.  The exponent search is fuelled; a magnitude
beyond the fuel (far outside binary64's normal range, where CPython would
overflow to `inf` or lose to subnormal rounding) is returned unrounded. -/
def roundDouble (q : ℚ) : ℚ :=
  if q = 0 then 0
  else
    let a := |q|
    let p := shiftUp 1100 a 0
    let p2 := shiftDown 1100 p.1 p.2
    if p2.1 < 2 ^ 52 ∨ (2 ^ 53 : ℚ) ≤ p2.1 then q
    else (if q < 0 then (-1 : ℚ) else 1) * (roundHalfEven p2.1 : ℚ) * pow2 (-p2.2)

/-- `q` is (the exact value of) a binary64 double: rounding fixes it. -/
def isDouble (q : ℚ) : Prop := roundDouble q = q

instance (q : ℚ) : Decidable (isDouble q) := by unfold isDouble; infer_instance

/-! ## Decimal rendering (Python `str(int)` and `f"{x:.4f}"`) -/

/-- The decimal digit character for `d` (every use has `d < 10`). -/
def natDigitChar (d : Nat) : Char :=
  if d = 0 then '0' else if d = 1 then '1' else if d = 2 then '2'
  else if d = 3 then '3' else if d = 4 then '4' else if d = 5 then '5'
  else if d = 6 then '6' else if d = 7 then '7' else if d = 8 then '8' else '9'

/-- Digits of `n` in base 10, most significant first, prepended to `acc`
(fuelled; `natRepr` supplies ample fuel). -/
def natDigitsAux : Nat → Nat → List Char → List Char
  | 0, _, acc => acc
  | f + 1, n, acc =>
    if n < 10 then natDigitChar n :: acc
    else natDigitsAux f (n / 10) (natDigitChar (n % 10) :: acc)

/-- Decimal digits of a natural number. -/
def natRepr (n : Nat) : List Char := natDigitsAux (n + 1) n []

/-- Python `str` of an `int`. -/
def intStr (n : ℤ) : String :=
  String.mk ((if n < 0 then ['-'] else []) ++ natRepr n.natAbs)

/-- A natural number below `10000` as exactly four digits (zero-padded). -/
def pad4 (n : Nat) : List Char :=
  let d := natRepr n
  List.replicate (4 - d.length) '0' ++ d

/-- Python `str.rstrip(c)` for a single strip character. -/
def pyRstripChar (c : Char) (s : List Char) : List Char :=
  (s.reverse.dropWhile (· == c)).reverse

/-- Lines 177–179 of `main.py`: `f"{result:.4f}".rstrip("0").rstrip(".")`, then
an ellipsis is appended when `float(formatted_result) != result`.

Reading of the Python: `%.4f` of a double prints the correctly rounded (ties
to even) fixed-point numeral with four fractional digits, so its digits come
from `roundHalfEven (q * 10000)`, with the sign of `q` in front (`-0.0000`
keeps its minus sign).  `float(...)` of the stripped numeral is the double
nearest the numeral's exact decimal value; stripping trailing zeros and a
trailing dot leaves that value unchanged, and it is `r / 10000` up to the
sign of zero, which `==` on doubles ignores — so the comparison is modelled
on `roundDouble (r / 10000) = q`. -/
def pyFormatFloat (q : ℚ) : String :=
  let r := roundHalfEven (q * 10000)
  let m := r.natAbs
  let fixed := (if q < 0 then ['-'] else []) ++ natRepr (m / 10000) ++ '.' :: pad4 (m % 10000)
  let stripped := pyRstripChar '.' (pyRstripChar '0' fixed)
  if roundDouble ((r : ℚ) / 10000) = q then String.mk stripped
  else String.mk (stripped ++ ['…'])

/-! ## Python values and arithmetic (the fragment `eval` sees)

The extraction prompt asks the model for purely numeric arithmetic
expressions; the embedded fragment is integer and decimal literals,
`+ - * /`, `**` with integer exponents, unary sign, parentheses, and tuples
built with commas.  Every name raises `NameError` (the fragment has no
variables; Python's builtins are not modelled).  Outside the fragment and
unexercised by any claim: float-exponent `**` (libm `pow`), `// %`,
scientific literals, sequence arithmetic on tuples (in CPython `(1,2)+(3,4)`
is a tuple — here a `TypeError`; either way the formatter drops it),
comparisons, calls. -/

inductive PyVal where
  | intV : Int → PyVal
  | floatV : ℚ → PyVal
  | tupleV : List PyVal → PyVal

/-- Python `+`, `-` (binary) and `*` on numbers: `int op int` is exact
`int`; a `float` operand promotes and the double result is re-rounded. -/
def pyArith (opInt : Int → Int → Int) (opQ : ℚ → ℚ → ℚ) :
    PyVal → PyVal → Except String PyVal
  | .intV a, .intV b => .ok (.intV (opInt a b))
  | .intV a, .floatV b => .ok (.floatV (roundDouble (opQ (a : ℚ) b)))
  | .floatV a, .intV b => .ok (.floatV (roundDouble (opQ a (b : ℚ))))
  | .floatV a, .floatV b => .ok (.floatV (roundDouble (opQ a b)))
  | _, _ => .error "TypeError"

/-- Python true division `/`: always a float; division by zero raises. -/
def pyDiv : PyVal → PyVal → Except String PyVal
  | .intV a, .intV b =>
    if b = 0 then .error "ZeroDivisionError"
    else .ok (.floatV (roundDouble ((a : ℚ) / (b : ℚ))))
  | .intV a, .floatV b =>
    if b = 0 then .error "ZeroDivisionError"
    else .ok (.floatV (roundDouble ((a : ℚ) / b)))
  | .floatV a, .intV b =>
    if b = 0 then .error "ZeroDivisionError"
    else .ok (.floatV (roundDouble (a / (b : ℚ))))
  | .floatV a, .floatV b =>
    if b = 0 then .error "ZeroDivisionError"
    else .ok (.floatV (roundDouble (a / b)))
  | _, _ => .error "TypeError"

/-- Python `**` with an integer exponent: `int ** nonneg int` is exact `int`,
a negative exponent or float base gives a float. -/
def pyPow : PyVal → PyVal → Except String PyVal
  | .intV a, .intV b =>
    if 0 ≤ b then .ok (.intV (a ^ b.toNat))
    else if a = 0 then .error "ZeroDivisionError"
    else .ok (.floatV (roundDouble (1 / ((a : ℚ) ^ (-b).toNat))))
  | .floatV a, .intV b =>
    if 0 ≤ b then .ok (.floatV (roundDouble (a ^ b.toNat)))
    else if a = 0 then .error "ZeroDivisionError"
    else .ok (.floatV (roundDouble (1 / (a ^ (-b).toNat))))
  | _, _ => .error "TypeError"

/-- Python unary `-` on a value. -/
def pyNeg : PyVal → Except String PyVal
  | .intV a => .ok (.intV (-a))
  | .floatV a => .ok (.floatV (-a))
  | .tupleV _ => .error "TypeError"

/-- Python unary `+` on a value. -/
def pyPos : PyVal → Except String PyVal
  | .intV a => .ok (.intV a)
  | .floatV a => .ok (.floatV a)
  | .tupleV _ => .error "TypeError"

/-! ## Tokenizer and parser for the arithmetic fragment -/

inductive Tok where
  | num : PyVal → Tok
  | name : String → Tok
  | plus | minus | star | slash | dstar | lparen | rparen | comma

/-- Numeric value of a list of decimal digit characters. -/
def digitsToNat (ds : List Char) : Nat :=
  ds.foldl (fun acc c => 10 * acc + (c.toNat - '0'.toNat)) 0

/-- Exact value of the decimal literal `ip.fp`. -/
def decValue (ip fp : List Char) : ℚ :=
  (digitsToNat ip : ℚ) + (digitsToNat fp : ℚ) / ((10 ^ fp.length : ℕ) : ℚ)

/-- First character of a Python identifier. -/
def isNameFirst (c : Char) : Bool := c.isAlpha || c = '_'

/-- Later character of a Python identifier. -/
def isNameRest (c : Char) : Bool := c.isAlpha || c.isDigit || c = '_'

/-- Tokenize the arithmetic fragment (fuelled: each step consumes at least
one character).  An integer literal with a leading zero is a Python
`SyntaxError`; a decimal literal may carry leading zeros. -/
def tokenizeF : Nat → List Char → Except String (List Tok)
  | 0, _ => .error "fuel"
  | _, [] => .ok []
  | f + 1, c :: rest =>
    if c.isWhitespace then tokenizeF f rest
    else if c.isDigit || c = '.' then
      let s1 := c :: rest
      let ip := s1.takeWhile Char.isDigit
      let r1 := s1.dropWhile Char.isDigit
      match r1 with
      | '.' :: r2 =>
        let fp := r2.takeWhile Char.isDigit
        let r3 := r2.dropWhile Char.isDigit
        if ip.isEmpty && fp.isEmpty then .error "SyntaxError"
        else do
          let toks ← tokenizeF f r3
          pure (Tok.num (.floatV (roundDouble (decValue ip fp))) :: toks)
      | _ =>
        if ip.length > 1 && ip.headD ' ' = '0' then .error "SyntaxError"
        else do
          let toks ← tokenizeF f r1
          pure (Tok.num (.intV (digitsToNat ip)) :: toks)
    else if isNameFirst c then
      let nm := c :: rest.takeWhile isNameRest
      let r1 := rest.dropWhile isNameRest
      do
        let toks ← tokenizeF f r1
        pure (Tok.name (String.mk nm) :: toks)
    else if c = '*' then
      match rest with
      | '*' :: r1 => do
        let toks ← tokenizeF f r1
        pure (Tok.dstar :: toks)
      | _ => do
        let toks ← tokenizeF f rest
        pure (Tok.star :: toks)
    else if c = '+' then do
      let toks ← tokenizeF f rest
      pure (Tok.plus :: toks)
    else if c = '-' then do
      let toks ← tokenizeF f rest
      pure (Tok.minus :: toks)
    else if c = '/' then do
      let toks ← tokenizeF f rest
      pure (Tok.slash :: toks)
    else if c = '(' then do
      let toks ← tokenizeF f rest
      pure (Tok.lparen :: toks)
    else if c = ')' then do
      let toks ← tokenizeF f rest
      pure (Tok.rparen :: toks)
    else if c = ',' then do
      let toks ← tokenizeF f rest
      pure (Tok.comma :: toks)
    else .error "SyntaxError"

inductive PyExpr where
  | lit : PyVal → PyExpr
  | name : String → PyExpr
  | neg : PyExpr → PyExpr
  | pos : PyExpr → PyExpr
  | add : PyExpr → PyExpr → PyExpr
  | sub : PyExpr → PyExpr → PyExpr
  | mul : PyExpr → PyExpr → PyExpr
  | div : PyExpr → PyExpr → PyExpr
  | pow : PyExpr → PyExpr → PyExpr
  | tup : List PyExpr → PyExpr

/-- A comma-separated expression list is a tuple unless it has one entry. -/
def mkTupleOrSingle : List PyExpr → PyExpr
  | [e] => e
  | es => .tup es

mutual

/-- Atom: a literal, a name, or a parenthesized expression list. -/
def parseAtom : Nat → List Tok → Except String (PyExpr × List Tok)
  | 0, _ => .error "fuel"
  | f + 1, toks =>
    match toks with
    | Tok.num v :: rest => .ok (.lit v, rest)
    | Tok.name s :: rest => .ok (.name s, rest)
    | Tok.lparen :: rest => do
      let (es, rest2) ← parseExprList f rest
      match rest2 with
      | Tok.rparen :: rest3 => pure (mkTupleOrSingle es, rest3)
      | _ => .error "SyntaxError"
    | _ => .error "SyntaxError"

/-- Power: `atom ** unary` (right-associative; Python allows a signed
exponent). -/
def parsePow : Nat → List Tok → Except String (PyExpr × List Tok)
  | 0, _ => .error "fuel"
  | f + 1, toks => do
    let (a, rest) ← parseAtom f toks
    match rest with
    | Tok.dstar :: rest2 => do
      let (b, rest3) ← parseUnary f rest2
      pure (.pow a b, rest3)
    | _ => pure (a, rest)

/-- Unary sign (binds looser than `**` on the left, as in Python). -/
def parseUnary : Nat → List Tok → Except String (PyExpr × List Tok)
  | 0, _ => .error "fuel"
  | f + 1, toks =>
    match toks with
    | Tok.minus :: rest => do
      let (a, rest2) ← parseUnary f rest
      pure (.neg a, rest2)
    | Tok.plus :: rest => do
      let (a, rest2) ← parseUnary f rest
      pure (.pos a, rest2)
    | _ => parsePow f toks

/-- Left-associative `*` and `/` chain after a first factor. -/
def parseTermRest : Nat → PyExpr → List Tok → Except String (PyExpr × List Tok)
  | 0, _, _ => .error "fuel"
  | f + 1, a, toks =>
    match toks with
    | Tok.star :: rest => do
      let (b, rest2) ← parseUnary f rest
      parseTermRest f (.mul a b) rest2
    | Tok.slash :: rest => do
      let (b, rest2) ← parseUnary f rest
      parseTermRest f (.div a b) rest2
    | _ => pure (a, toks)

/-- Term: factors joined by `*` and `/`. -/
def parseTerm : Nat → List Tok → Except String (PyExpr × List Tok)
  | 0, _ => .error "fuel"
  | f + 1, toks => do
    let (a, rest) ← parseUnary f toks
    parseTermRest f a rest

/-- Left-associative `+` and `-` chain after a first term. -/
def parseSumRest : Nat → PyExpr → List Tok → Except String (PyExpr × List Tok)
  | 0, _, _ => .error "fuel"
  | f + 1, a, toks =>
    match toks with
    | Tok.plus :: rest => do
      let (b, rest2) ← parseTerm f rest
      parseSumRest f (.add a b) rest2
    | Tok.minus :: rest => do
      let (b, rest2) ← parseTerm f rest
      parseSumRest f (.sub a b) rest2
    | _ => pure (a, toks)

/-- Sum: terms joined by `+` and `-`. -/
def parseSum : Nat → List Tok → Except String (PyExpr × List Tok)
  | 0, _ => .error "fuel"
  | f + 1, toks => do
    let (a, rest) ← parseSum.go f toks
    pure (a, rest)

/-- Worker for `parseSum`. -/
def parseSum.go : Nat → List Tok → Except String (PyExpr × List Tok)
  | 0, _ => .error "fuel"
  | f + 1, toks => do
    let (a, rest) ← parseTerm f toks
    parseSumRest f a rest

/-- Comma-separated expression list (at least one entry). -/
def parseExprList : Nat → List Tok → Except String (List PyExpr × List Tok)
  | 0, _ => .error "fuel"
  | f + 1, toks => do
    let (a, rest) ← parseSum f toks
    match rest with
    | Tok.comma :: rest2 => do
      let (es, rest3) ← parseExprList f rest2
      pure (a :: es, rest3)
    | _ => pure ([a], rest)

end

/-- Parse a whole token list as one (possibly tuple-building) expression. -/
def pyParse (fuel : Nat) (toks : List Tok) : Except String PyExpr := do
  let (es, rest) ← parseExprList fuel toks
  match rest with
  | [] => pure (mkTupleOrSingle es)
  | _ => .error "SyntaxError"

mutual

/-- Evaluate an embedded expression (fuelled on the tree height). -/
def pyEvalF : Nat → PyExpr → Except String PyVal
  | 0, _ => .error "RecursionError"
  | f + 1, e =>
    match e with
    | .lit v => .ok v
    | .name s => .error ("NameError: name " ++ s ++ " is not defined")
    | .neg a => do pyNeg (← pyEvalF f a)
    | .pos a => do pyPos (← pyEvalF f a)
    | .add a b => do pyArith (· + ·) (· + ·) (← pyEvalF f a) (← pyEvalF f b)
    | .sub a b => do pyArith (· - ·) (· - ·) (← pyEvalF f a) (← pyEvalF f b)
    | .mul a b => do pyArith (· * ·) (· * ·) (← pyEvalF f a) (← pyEvalF f b)
    | .div a b => do pyDiv (← pyEvalF f a) (← pyEvalF f b)
    | .pow a b => do pyPow (← pyEvalF f a) (← pyEvalF f b)
    | .tup es => do pure (.tupleV (← pyEvalListF f es))

/-- Evaluate the entries of a tuple. -/
def pyEvalListF : Nat → List PyExpr → Except String (List PyVal)
  | 0, _ => .error "RecursionError"
  | _ + 1, [] => .ok []
  | f + 1, e :: es => do
    let v ← pyEvalF f e
    let vs ← pyEvalListF f es
    pure (v :: vs)

end

/-- Python `eval(exp)` on the arithmetic fragment: tokenize, parse, evaluate.
The fuel bounds are generous: tokens are no more numerous than characters,
and every parser or evaluator step consumes a token or descends one of the
five grammar levels. -/
def pyEvalStr (s : String) : Except String PyVal := do
  let toks ← tokenizeF (s.length + 1) s.data
  let e ← pyParse (8 * (s.length + 1)) toks
  pyEvalF (8 * (s.length + 1)) e

/-! ## The Expression Validator (`convert_arithmetic_expressions`) -/

/-- Lines 173–181 of `main.py`: format a result by its runtime type; a
non-number gives `none` and the expression is skipped. -/
def formatResult : PyVal → Option String
  | .intV n => some (intStr n)
  | .floatV q => some (pyFormatFloat q)
  | .tupleV _ => none

/-- One iteration of the loop in lines 168–187 of `main.py`: the output line
contributed by one split piece — `none` when the piece is dropped because
`eval` raised or the result is not a number. -/
def expr_result_line (exp0 : String) : Option String :=
  let exp := pyStrip exp0
  match pyEvalStr exp with
  | .error _ => none
  | .ok result =>
    match formatResult result with
    | none => none
    | some formatted => some (exp ++ " = " ++ formatted)

/-- Python `"\n".join(lines)`. -/
def joinNL : List String → String
  | [] => ""
  | [l] => l
  | l :: ls => l ++ "\n" ++ joinNL ls

/-- The `output.append(...)` half of the loop body: extend the collected
lines when the piece produced one. -/
def append_result_line (output : List String) (exp : String) : List String :=
  match expr_result_line exp with
  | some line => output ++ [line]
  | none => output

/-- Lines 164–188 of `main.py` (`convert_arithmetic_expressions`): strip the
square brackets with `[1:-1]`, split on `", "`, evaluate and format each
piece, collect the `exp = result` lines, join with newlines. -/
def convert_arithmetic_expressions (input_str : String) : String :=
  let expressions := (splitCommaSpace (pyInnerL input_str.data) []).map String.mk
  let output := expressions.foldl append_result_line []
  joinNL output

/-! ## Prompts and the Classification Router -/

/-- The `Category` enum of `main.py` (lines 47–54). -/
inductive Category where
  | UNDEFINED
  | CALCULATION_BASED
  | CONCEPTUAL_INFORMATIONAL
  | MATH_PROBLEM_GENERATION
  | GREETINGS_SOCIAL
  | OFF_TOPIC
  | MISCELLANEOUS

/-- The numeric `.value` of each `Category` member. -/
def Category.value : Category → Nat
  | .UNDEFINED => 0
  | .CALCULATION_BASED => 1
  | .CONCEPTUAL_INFORMATIONAL => 2
  | .MATH_PROBLEM_GENERATION => 3
  | .GREETINGS_SOCIAL => 4
  | .OFF_TOPIC => 5
  | .MISCELLANEOUS => 6

/-- Lines 30–42 of `main.py`: the initial classification instruction. -/
def SYSTEM_PROMPT : String :=
  "\nClassify the user input according to the following categories and respond with only the category number (e.g., 1):\n\n1. Calculation-based questions: Questions requiring arithmetic or computational solutions, excluding coding-related questions.\n2. Conceptual/Informational questions: Questions about mathematical concepts or facts without calculations, excluding coding-related questions.\n3. Math problem generation: Questions asking for a new math problem to be generated.\n4. Greetings/Social: Greetings and social interactions including introduction.\n5. Off-topic: Statements or questions unrelated to math, including coding-related questions.\n6. Miscellaneous: Gibberish, unrelated questions, or difficult to classify inputs.\n\nAgain, only the category number should be your entire response, and nothing else should be included in the response.\nLet's work this out in a step by step way to be sure we have the right answer.\n"

/-- Lines 61–90 of `main.py`: the calculation-extraction instruction. -/
def prompt_calculation_extraction : String :=
  "\nYou are a researcher tasked with identifying where calculation is needed in the user input. Please follow these guidelines when answering:\n1. Do not perform the calculation. Instead, your entire response should be a list of the arithmetic expressions that need to be calculated step by step, separated by commas, and wrap them with square brackets, like the examples below:\n\nExamples (\"Q\" indicates question, and your entire response should start and end with square brackets as shown in the examples):\n\nQ: What is 1 + 2?\n[1 + 2]\n\nQ: What is the result of subtracting two times three from seven?\n[2 * 3, 7 - 2 * 3]\n\nQ: What is 1 + 2, and 3 + 4?\n[1 + 2, 3 + 4]\n\nQ: What is (1 + 2) * (3 + 4)?\n[1 + 2, 3 + 4, (1 + 2) * (3 + 4)]\n\nQ: What is \"x\" in the equation \"1 + 2x = 7\"?\n[7 - 1, (7 - 1) / 2]\n\nQ: What is 2 to the power of 3?\n[2 ** 3]\n\n2. Do not include expressions that cannot be calculated (e.g., algebraic expressions) because these expressions will be parsed and converted to equations by a Python function.\n3. For the same reason, avoid using mathematical constants or symbols, such as π or e, in the arithmetic expressions. Only use numbers and basic arithmetic operations that Python can interpret with the eval function. Convert mathematical constants or symbols to numbers when applicable.\n\nAgain, when you provide the list of arithmetic expressions, that should be the entire response, and nothing else should be included in the response. If the list is empty, your response should be [].\nLet's work this out in a step by step way to be sure we have the right list of expressions.\n"

/-- Lines 92–110 of `main.py`: the calculation-answer instruction, an
f-string embedding the validated equations. -/
def prompt_calculation_answer (equations : String) : String :=
  "\nYou are MathBot, a K-12 math tutor chatbot tasked with guiding students through math questions. Please follow these guidelines when answering:\n\n1. Provide step by step instructions on how to solve the problem, making use of the provided context of pre-calculated equations. Rather than giving the direct answer, demonstrate how you arrived at the answer through multiple steps.\n2. If the provided context is insufficient for accurately answering the question or solving the problem, respond with, \"Sorry, I don't have enough information to solve that.\"\n3. Incorporate the context naturally in your responses without explicitly mentioning it. Make your responses seem as if you've performed the calculations yourself.\n4. At the end of your response, provide the final answer on a new line, prefixed with \"#### \", ensuring there is a space after the ####. The answer should be a numerical value only, with no units or additional characters. Here's an example (\"Q\" indicates question):\n\nQ: What is 1 + 2?\nFirst, take the number 1.\nNext, add the number 2 to it.\nSo, 1 + 2 equals 3.\n#### 3\n\nLet's work this out in a step by step way to be sure we have the right instructions for the student.\n\nContext:\n" ++ equations ++ "\n"

/-- Lines 112–120 of `main.py`: the conceptual/informational instruction. -/
def prompt_conceptual_informational : String :=
  "\nYou are MathBot, a K-12 math tutor chatbot tasked with guiding students through math questions. Please follow these guidelines when answering:\n\n1. Explain the reason for your answer, or how you arrived at the answer in multiple steps when applicable.\n2. Provide the base knowledge for students to better understand your answer when applicable.\n3. If the question is incomplete, unclear to answer, or unsolvable, ask for clarification or explain why you cannot answer it.\n\nLet's work this out in a step by step way to be sure we have the right instructions for the student.\n"

/-- Lines 122–130 of `main.py`: the math-problem-generation instruction. -/
def prompt_math_problem_generation : String :=
  "\nYou are a researcher tasked with generating math problems as requested in the user input. Follow these guidelines when generating:\n\n1. When generating math problems, ensure they can be explained and solved in a step-by-step manner. Adjust the difficulty of the problem according to the user's age or grade level if provided.\n2. For word problems, use language that is clear, easy to understand, and safe for K-12 students.\n3. If the user's request for a math problem is unclear or lacks necessary information, ask for clarification or provide an explanation of why the problem cannot be generated.\n\nLet's work this out in a step by step way to be sure we have the right problems for the student.\n"

/-- Lines 132–140 of `main.py`: the greetings/social instruction. -/
def prompt_greetings_social : String :=
  "\nYou are MathBot, a K-12 math tutor chatbot tasked with guiding students through math questions. Please follow these guidelines when answering:\n\n1. Maintain a friendly and engaging conversation with students.\n2. Encourage and motivate students to foster a positive attitude towards math when appropriate.\n3. Ensure all responses are safe and appropriate for K-12 students, and gently guide students to use respectful and appropriate language if necessary.\n\nLet's work this out in a step by step way to be sure we have the right instructions for the student.\n"

/-- Lines 142–150 of `main.py`: the off-topic instruction. -/
def prompt_off_topic : String :=
  "\nYou are MathBot, a K-12 math tutor chatbot tasked with guiding students through math questions. Please follow these guidelines when answering:\n\n1. If the user input is not related to math, say something like \"I'm here to help with math-related questions. Can we focus on a math problem or concept?\"\n2. If the user input is related to math but not directly (e.g., coding-related questions), say something like \"My expertise is in math topics. Could we focus on a question that's directly related to math?\"\n3. If the user input is incomplete or unclear to answer, ask for clarification or explain why you cannot answer it.\n\nLet's work this out in a step by step way to be sure we have the right instructions for the student.\n"

/-- Lines 152–160 of `main.py`: the miscellaneous instruction. -/
def prompt_miscellaneous : String :=
  "\nYou are MathBot, a K-12 math tutor chatbot tasked with guiding students through math questions. Please follow these guidelines when answering:\n\n1. If the user input is an emotional interjection, empathize and provide supportive responses when appropriate.\n2. If the user input is gibberish (i.e., nonsensical or random characters), gently notify the user that the input was not understood and ask for a clear question or statement.\n3. If the user input is unclear or ambiguous but still appears to be an attempt at a meaningful question or statement, ask for clarification.\n\nLet's work this out in a step by step way to be sure we have the right instructions for the student.\n"

/-- Lines 57–161 of `main.py` (`get_altered_system_prompt`): the if/elif
chain over the category value; an unmatched value leaves the initial empty
string in place.  In the source `is_calculated` defaults to `False` and
`equations` to `""`. -/
def get_altered_system_prompt (system_prompt_category : Nat) (is_calculated : Bool)
    (equations : String) : String :=
  if system_prompt_category = Category.CALCULATION_BASED.value then
    if is_calculated = false then prompt_calculation_extraction
    else prompt_calculation_answer equations
  else if system_prompt_category = Category.CONCEPTUAL_INFORMATIONAL.value then
    prompt_conceptual_informational
  else if system_prompt_category = Category.MATH_PROBLEM_GENERATION.value then
    prompt_math_problem_generation
  else if system_prompt_category = Category.GREETINGS_SOCIAL.value then
    prompt_greetings_social
  else if system_prompt_category = Category.OFF_TOPIC.value then
    prompt_off_topic
  else if system_prompt_category = Category.MISCELLANEOUS.value then
    prompt_miscellaneous
  else ""

/-- One chat message (`{"role": ..., "content": ...}`). -/
structure ChatMessage where
  role : String
  content : String
deriving DecidableEq

/-- Python `messages[0]["content"] = altered_system_prompt` (lines 234 and
241): overwrite the content of message index 0.  Callers always pass the
two-message conversation built in `get_mathbot_answer`, so the list is
never empty there (Python would raise `IndexError` on an empty list). -/
def set_system_content (messages : List ChatMessage) (content : String) : List ChatMessage :=
  match messages with
  | [] => []
  | m :: rest => { m with content := content } :: rest

/-- Python `str` of a `bool`. -/
def pyBoolStr (b : Bool) : String := if b then "True" else "False"

/-- The f-string of line 247 of `main.py`, raised on any unexpected reply. -/
def unexpected_response_message (response_text : String) (system_prompt_category : Nat)
    (is_calculated : Bool) : String :=
  "response_text: " ++ response_text ++ ", system_prompt_category: " ++
    String.mk (natRepr system_prompt_category) ++ ", is_calculated: " ++
    pyBoolStr is_calculated

/-- What one level of `make_openai_request` does after the backend reply. -/
inductive RouterStep where
  | resend : List ChatMessage → Nat → Bool → RouterStep
  | done : String → RouterStep
  | raiseExc : String → RouterStep
deriving DecidableEq

/-- Lines 229–247 of `main.py`: the body of `make_openai_request` after the
backend returned `response_text`.  In the classification state a digit reply
rebinds `system_prompt_category` before the prompt lookup, so the diagnostic
of a digit reply with no instruction carries the new value; a reply that is
not all digits falls through to the raise with the old value.  In the
calculation-extraction state a bracketed reply is converted and resent; any
other reply falls through to the raise.  Every other state returns the
reply text. -/
def handle_response (messages : List ChatMessage) (system_prompt_category : Nat)
    (is_calculated : Bool) (response_text : String) : RouterStep :=
  if system_prompt_category = Category.UNDEFINED.value then
    if pyIsDigit response_text then
      let category2 := pyToNat response_text
      let altered_system_prompt := get_altered_system_prompt category2 false ""
      if altered_system_prompt ≠ "" then
        .resend (set_system_content messages altered_system_prompt) category2 false
      else
        .raiseExc (unexpected_response_message response_text category2 is_calculated)
    else
      .raiseExc (unexpected_response_message response_text system_prompt_category is_calculated)
  else if system_prompt_category = Category.CALCULATION_BASED.value ∧ is_calculated = false then
    if pyStartsWith response_text "[" && pyEndsWith response_text "]" then
      let equations := convert_arithmetic_expressions response_text
      let altered_system_prompt := get_altered_system_prompt system_prompt_category true equations
      if altered_system_prompt ≠ "" then
        .resend (set_system_content messages altered_system_prompt) system_prompt_category true
      else
        .raiseExc (unexpected_response_message response_text system_prompt_category is_calculated)
    else
      .raiseExc (unexpected_response_message response_text system_prompt_category is_calculated)
  else .done response_text

/-- Drive `make_openai_request` against an oracle: the list of successive
backend reply texts, consumed one per request.  Exhausting the list models
the backend call itself raising. -/
def run_request : List String → List ChatMessage → Nat → Bool → Except String String
  | [], _, _, _ => .error "The server had an error while processing your request"
  | r :: rs, messages, cat, ic =>
    match handle_response messages cat ic r with
    | .done t => .ok t
    | .raiseExc m => .error m
    | .resend messages2 cat2 calc2 => run_request rs messages2 cat2 calc2

/-- Lines 250–256 of `main.py` (`get_mathbot_answer`): build the two-message
conversation, run the request, and turn any exception into an
`Error: `-prefixed string. -/
def get_mathbot_answer (replies : List String) (question : String) : String :=
  match run_request replies [⟨"system", SYSTEM_PROMPT⟩, ⟨"user", question⟩]
      Category.UNDEFINED.value false with
  | .ok answer => answer
  | .error e => "Error: " ++ e

/-! ## The batch answer loop (`write_mathbot_answers`) -/

/-- The skip test of line 375 of `main.py`: a stored cell blocks
re-answering iff it strips to a nonempty string that does not start with
`"Error: "`; a missing cell (the row index is past the fetched answers)
never blocks. -/
def should_skip (cell : Option String) : Bool :=
  match cell with
  | none => false
  | some s => !(pyStrip s).data.isEmpty && !pyStartsWith (pyStrip s) "Error: "

/-- Lines 368–390 of `main.py`: the loop of `write_mathbot_answers`.
`answer_for` stands for `get_mathbot_answer` with its nested model calls;
the result lists the `(row index, value)` updates written to the `MathBot`
column, in order.  An empty question cell or a full answer budget stops the
loop. -/
def write_loop (answer_for : String → String) :
    List String → Nat → Nat → Nat → List String → List (Nat × String)
  | [], _, _, _, _ => []
  | question :: qs, i, num_answers, max_num_answers, mathbot_answers =>
    if question = "" then []
    else if ¬ num_answers < max_num_answers then []
    else if should_skip (mathbot_answers.get? i) then
      write_loop answer_for qs (i + 1) num_answers max_num_answers mathbot_answers
    else
      (i, answer_for question) ::
        write_loop answer_for qs (i + 1) (num_answers + 1) max_num_answers mathbot_answers

/-- The whole batch run: the updates written for the fetched question and
answer columns under the given budget. -/
def write_mathbot_answers_updates (answer_for : String → String)
    (questions mathbot_answers : List String) (max_num_answers : Nat) : List (Nat × String) :=
  write_loop answer_for questions 0 0 max_num_answers mathbot_answers

/-! ## The equation form of the Expression Validator (spec §4.1) -/

/-- A plain signed integer or decimal numeral in the sense of spec §4.1: an
optional sign, then digits, optionally followed by a dot and digits. -/
def isPlainNumeral (s : String) : Bool :=
  let body := match s.data with
    | '-' :: t => t
    | '+' :: t => t
    | t => t
  let ip := body.takeWhile Char.isDigit
  let r := body.dropWhile Char.isDigit
  match r with
  | [] => !ip.isEmpty
  | '.' :: fr => !ip.isEmpty && fr.all Char.isDigit
  | _ => false

/-- Split a string at its first `=`, when it has one. -/
def splitFirstEq : List Char → Option (List Char × List Char)
  | [] => none
  | c :: t =>
    if c = '=' then some ([], t)
    else (splitFirstEq t).map (fun p => (c :: p.1, p.2))

/-- Modelled from the spec: the Expression Validator's standalone equation
form (spec §4.1).  The dialogue-orchestrator variant carrying this code path
is not among the repository's files — `main.py` holds only the bracketed-list
path — so the definition follows the spec's words: for `lhs=rhs`, reject
(return the input unchanged) when `lhs` alone is already a numeral, or when
`rhs` is not a plain signed integer/decimal numeral; otherwise recompute
`lhs` and overwrite `rhs` with the validator's own formatted result,
ignoring the supplied `rhs`; on any evaluation failure fall back silently to
the unchanged input. -/
def convert_equation (input : String) : String :=
  match splitFirstEq input.data with
  | none => input
  | some (lhsL, rhsL) =>
    let lhs := String.mk lhsL
    let rhs := String.mk rhsL
    if isPlainNumeral lhs then input
    else if !isPlainNumeral rhs then input
    else
      match pyEvalStr lhs with
      | .error _ => input
      | .ok v =>
        match formatResult v with
        | none => input
        | some formatted => lhs ++ "=" ++ formatted

/-! ## Helper lemmas -/

/-- The accumulating loop of `convert_arithmetic_expressions` collects
exactly the successful results, in order. -/
theorem foldl_append_result_line :
    ∀ (l : List String) (acc : List String),
      l.foldl append_result_line acc = acc ++ l.filterMap expr_result_line
  | [], acc => by simp
  | e :: l, acc => by
    cases h : expr_result_line e <;>
      simp [append_result_line, h, foldl_append_result_line l, List.filterMap_cons]

/-- `convert_arithmetic_expressions` as split-evaluate-join. -/
theorem convert_eq_filterMap (input_str : String) :
    convert_arithmetic_expressions input_str =
      joinNL (((splitCommaSpace (pyInnerL input_str.data) []).map String.mk).filterMap
        expr_result_line) := by
  simp only [convert_arithmetic_expressions]
  rw [foldl_append_result_line]
  simp

/-- `ratFloor` is the floor. -/
theorem ratFloor_eq_floor (q : ℚ) : ratFloor q = ⌊q⌋ := by
  rw [ratFloor, Int.fdiv_eq_ediv _ (Int.natCast_nonneg q.den)]
  exact (Rat.floor_def).symm

/-- Rounding to the nearest integer moves a rational by at most one half. -/
theorem roundHalfEven_abs_sub_le (x : ℚ) : |(roundHalfEven x : ℚ) - x| ≤ 1 / 2 := by
  have hf0 : ((ratFloor x : ℤ) : ℚ) ≤ x := by
    rw [ratFloor_eq_floor]; exact_mod_cast Int.floor_le x
  have hf1 : x < ((ratFloor x : ℤ) : ℚ) + 1 := by
    rw [ratFloor_eq_floor]; exact_mod_cast Int.lt_floor_add_one x
  simp only [roundHalfEven]
  split_ifs <;> push_cast <;> rw [abs_le] <;> constructor <;> linarith

/-- Rounding fixes integers. -/
theorem roundHalfEven_intCast (m : ℤ) : roundHalfEven (m : ℚ) = m := by
  have hm : ratFloor (m : ℚ) = m := by
    rw [ratFloor_eq_floor]; exact Int.floor_intCast m
  simp only [roundHalfEven, hm]
  norm_num

/-- Every digit character is a digit. -/
theorem natDigitChar_isDigit (d : Nat) : (natDigitChar d).isDigit = true := by
  unfold natDigitChar
  split_ifs <;> decide

/-- Characters produced by `natDigitsAux` are digits or come from the
accumulator. -/
theorem natDigitsAux_mem : ∀ (f n : Nat) (acc : List Char) (c : Char),
    c ∈ natDigitsAux f n acc → c ∈ acc ∨ c.isDigit = true
  | 0, _, _, _, h => Or.inl h
  | f + 1, n, acc, c, h => by
    unfold natDigitsAux at h
    split_ifs at h
    · rcases List.mem_cons.mp h with h | h
      · exact Or.inr (h ▸ natDigitChar_isDigit n)
      · exact Or.inl h
    · rcases natDigitsAux_mem f (n / 10) (natDigitChar (n % 10) :: acc) c h with h | h
      · rcases List.mem_cons.mp h with h | h
        · exact Or.inr (h ▸ natDigitChar_isDigit (n % 10))
        · exact Or.inl h
      · exact Or.inr h

/-- Every character of `natRepr` is a digit. -/
theorem natRepr_mem_isDigit {n : Nat} {c : Char} (h : c ∈ natRepr n) : c.isDigit = true := by
  rcases natDigitsAux_mem _ _ _ _ h with h | h
  · simp at h
  · exact h

/-- `natDigitsAux` returns nil only when it starts from nothing. -/
theorem natDigitsAux_eq_nil : ∀ {f n : Nat} {acc : List Char},
    natDigitsAux f n acc = [] → f = 0 ∧ acc = []
  | 0, _, _, h => ⟨rfl, h⟩
  | f + 1, n, acc, h => by
    unfold natDigitsAux at h
    split_ifs at h
    exact absurd (natDigitsAux_eq_nil h).2 (List.cons_ne_nil _ _)

/-- A number has at least one digit. -/
theorem natRepr_ne_nil (n : Nat) : natRepr n ≠ [] := fun h => by
  have := (natDigitsAux_eq_nil h).1
  omega

/-- Stripping eats a trailing strip character. -/
theorem pyRstripChar_append_same (c : Char) (x : List Char) :
    pyRstripChar c (x ++ [c]) = pyRstripChar c x := by
  simp [pyRstripChar, List.dropWhile_cons]

/-- Stripping stops at a trailing non-strip character. -/
theorem pyRstripChar_append_ne (c d : Char) (x : List Char) (h : d ≠ c) :
    pyRstripChar c (x ++ [d]) = x ++ [d] := by
  simp [pyRstripChar, List.dropWhile_cons, h]

/-- Stripping only removes characters. -/
theorem mem_pyRstripChar {c d : Char} {x : List Char} (h : d ∈ pyRstripChar c x) : d ∈ x := by
  simp only [pyRstripChar, List.mem_reverse] at h
  exact List.mem_reverse.mp ((List.dropWhile_sublist _).subset h)

/-- A string whose characters exclude the ellipsis does not end in one. -/
theorem pyEndsWith_ellipsis_false {l : List Char} (h : '…' ∉ l) :
    pyEndsWith (String.mk l) "…" = false := by
  unfold pyEndsWith
  show List.isPrefixOf ['…'] l.reverse = false
  cases hl : l.reverse with
  | nil => rfl
  | cons y ys =>
    have hy : y ∈ l := by
      rw [← List.mem_reverse, hl]; simp
    have hne : ('…' == y) = false := by
      simp only [beq_eq_false_iff_ne, ne_eq]
      exact fun he => h (he ▸ hy)
    simp [List.isPrefixOf, hne]

/-- Appending an ellipsis makes the string end in one. -/
theorem pyEndsWith_append_ellipsis (l : List Char) :
    pyEndsWith (String.mk (l ++ ['…'])) "…" = true := by
  unfold pyEndsWith
  show List.isPrefixOf ['…'] (l ++ ['…']).reverse = true
  simp [List.isPrefixOf]

/-- `Error: `-prefixed strings start with the error marker. -/
theorem pyStartsWith_error_prefix (e : String) :
    pyStartsWith ("Error: " ++ e) "Error: " = true := by
  simp [pyStartsWith, String.data_append, List.isPrefixOf_iff_prefix]

/-- A string differs from the empty string iff its characters do. -/
theorem string_ne_empty_iff {s : String} : s ≠ "" ↔ s.data ≠ [] := by
  rw [ne_eq, String.ext_iff]

/-- The calculation-answer instruction is nonempty whatever the equations. -/
theorem prompt_calculation_answer_ne_empty (equations : String) :
    prompt_calculation_answer equations ≠ "" := by
  intro h
  have h2 := congrArg String.data h
  rw [prompt_calculation_answer] at h2
  simp only [String.data_append] at h2
  have h3 := (List.append_eq_nil.mp h2).2
  exact absurd h3 (by decide)

/-- The classification-stage instruction lookup is nonempty exactly for the
category values 1 through 6. -/
theorem get_altered_ne_empty_iff (v : Nat) :
    (get_altered_system_prompt v false "" ≠ "") ↔ (1 ≤ v ∧ v ≤ 6) := by
  rcases Nat.lt_or_ge v 7 with h7 | h7
  · interval_cases v <;> decide
  · have hz : get_altered_system_prompt v false "" = "" := by
      unfold get_altered_system_prompt
      simp only [Category.value]
      split_ifs <;> first | rfl | omega
    rw [hz]
    simp
    omega

/-! ## C10: the split separator is exactly comma-space -/

/-- C10.  The extraction reply's interior is split on the exact two-character
separator comma-space: `"[1 + 2,3 + 4]"` stays one piece, which `eval`
turns into the tuple `(3, 7)`; a tuple is not a number, so the piece is
dropped and the context is empty — unlike `"[1 + 2, 3 + 4]"`, which gives
the two result lines. -/
theorem c10_comma_space_split :
    splitCommaSpace "1 + 2,3 + 4".data [] = ["1 + 2,3 + 4".data] ∧
    pyEvalStr "1 + 2,3 + 4" = Except.ok (PyVal.tupleV [PyVal.intV 3, PyVal.intV 7]) ∧
    formatResult (PyVal.tupleV [PyVal.intV 3, PyVal.intV 7]) = none ∧
    convert_arithmetic_expressions "[1 + 2,3 + 4]" = "" ∧
    convert_arithmetic_expressions "[1 + 2, 3 + 4]" = "1 + 2 = 3\n3 + 4 = 7" :=
  ⟨rfl, rfl, rfl, rfl, rfl⟩

/-! ## C4: failing expressions are dropped silently -/

/-- C4, counterexample.  The claim says a failing expression makes the
validator return the original string unchanged; in the code the failing
piece is dropped instead: `"[x + 1]"` converts to the empty string, not to
the original text. -/
theorem c4_fallback_counterexample :
    convert_arithmetic_expressions "[x + 1]" = "" ∧
    ("" : String) ≠ "x + 1" ∧ ("" : String) ≠ "[x + 1]" :=
  ⟨rfl, by decide, by decide⟩

/-- C4, amended.  A piece whose evaluation raises (syntax error, undefined
name, type error) contributes no output line: the bare `except` swallows the
exception and the loop continues, so nothing escapes to the caller. -/
theorem c4_silent_fallback (exp msg : String)
    (h : pyEvalStr (pyStrip exp) = Except.error msg) :
    expr_result_line exp = none := by
  simp [expr_result_line, h]

/-- C4, witness at the undefined name `x + 1`. -/
theorem c4_fallback_witness :
    expr_result_line "x + 1" = none ∧
    pyEvalStr "x + 1" = Except.error "NameError: name x is not defined" :=
  ⟨c4_silent_fallback "x + 1" "NameError: name x is not defined" rfl, rfl⟩

/-! ## C2: the calculation pipeline -/

/-- C2.  An extraction reply that starts with `[` and ends with `]` has its
interior split on `", "`; each piece is evaluated independently and yields
one `expression = result` line per success, in order, joined by newlines,
with failing pieces dropped; `"[1 + 2, 3 + 4]"` gives exactly the two
expected lines and `"[x + 1]"` an empty context, and the router resends
with the context embedded in the calculation-answer instruction. -/
theorem c2_calculation_pipeline :
    convert_arithmetic_expressions "[1 + 2, 3 + 4]" = "1 + 2 = 3\n3 + 4 = 7" ∧
    convert_arithmetic_expressions "[x + 1]" = "" ∧
    (∀ input_str : String,
      convert_arithmetic_expressions input_str =
        joinNL (((splitCommaSpace (pyInnerL input_str.data) []).map String.mk).filterMap
          expr_result_line)) ∧
    (∀ (m0 : ChatMessage) (rest : List ChatMessage) (r : String),
      pyStartsWith r "[" = true → pyEndsWith r "]" = true →
      handle_response (m0 :: rest) Category.CALCULATION_BASED.value false r =
        RouterStep.resend
          ({ m0 with content :=
              prompt_calculation_answer (convert_arithmetic_expressions r) } :: rest)
          Category.CALCULATION_BASED.value true) := by
  refine ⟨rfl, rfl, convert_eq_filterMap, fun m0 rest r hs he => ?_⟩
  have hne := prompt_calculation_answer_ne_empty (convert_arithmetic_expressions r)
  simp [handle_response, Category.value, hs, he, get_altered_system_prompt,
    set_system_content, hne]

/-- C2, witness at the two replies of the claim. -/
theorem c2_calculation_pipeline_witness :
    handle_response [⟨"system", SYSTEM_PROMPT⟩, ⟨"user", "Q"⟩]
        Category.CALCULATION_BASED.value false "[1 + 2, 3 + 4]" =
      RouterStep.resend
        [⟨"system", prompt_calculation_answer "1 + 2 = 3\n3 + 4 = 7"⟩, ⟨"user", "Q"⟩]
        Category.CALCULATION_BASED.value true := by
  have h := (c2_calculation_pipeline.2.2.2) ⟨"system", SYSTEM_PROMPT⟩ [⟨"user", "Q"⟩]
    "[1 + 2, 3 + 4]" rfl rfl
  exact h.trans (by rfl)

/-! ## C3: the classification router on "3" and on a non-digit reply -/

/-- C3.  A classification reply of exactly `"3"` replaces the system
instruction (message index 0) with the math-problem-generation instruction
and resends the conversation; a reply that is not all digits raises the
diagnostic exception carrying the raw reply text, the category value and the
calculation-stage flag. -/
theorem c3_classification_router (m0 : ChatMessage) (rest : List ChatMessage) (r : String) :
    (handle_response (m0 :: rest) Category.UNDEFINED.value false "3" =
      RouterStep.resend ({ m0 with content := prompt_math_problem_generation } :: rest)
        Category.MATH_PROBLEM_GENERATION.value false) ∧
    (∀ rs : List String,
      run_request ("3" :: rs) (m0 :: rest) Category.UNDEFINED.value false =
        run_request rs ({ m0 with content := prompt_math_problem_generation } :: rest)
          Category.MATH_PROBLEM_GENERATION.value false) ∧
    (pyIsDigit r = false →
      handle_response (m0 :: rest) Category.UNDEFINED.value false r =
        RouterStep.raiseExc (unexpected_response_message r Category.UNDEFINED.value false)) ∧
    unexpected_response_message r Category.UNDEFINED.value false =
      "response_text: " ++ r ++ ", system_prompt_category: 0, is_calculated: False" := by
  refine ⟨rfl, fun rs => rfl, fun hd => ?_, ?_⟩
  · simp [handle_response, Category.value, hd]
  · simp only [unexpected_response_message, Category.value, String.append_assoc]
    congr 1

/-- C3, witness at the two replies of the claim. -/
theorem c3_classification_router_witness :
    handle_response [⟨"system", SYSTEM_PROMPT⟩, ⟨"user", "Q"⟩] Category.UNDEFINED.value false
        "I think it's 3" =
      RouterStep.raiseExc
        "response_text: I think it's 3, system_prompt_category: 0, is_calculated: False" ∧
    handle_response [⟨"system", SYSTEM_PROMPT⟩, ⟨"user", "Q"⟩] Category.UNDEFINED.value false
        "3" =
      RouterStep.resend [⟨"system", prompt_math_problem_generation⟩, ⟨"user", "Q"⟩]
        Category.MATH_PROBLEM_GENERATION.value false := by
  have h := c3_classification_router ⟨"system", SYSTEM_PROMPT⟩ [⟨"user", "Q"⟩] "I think it's 3"
  refine ⟨?_, h.1⟩
  have h2 := h.2.2.1 rfl
  exact h2.trans (by rfl)

/-! ## C9: digit replies route by integer value, not by single digits -/

/-- C9, counterexample.  The claim says the single-digit replies `"1"`
through `"6"` are the only ones that route onward; the all-digit reply
`"01"` is none of them, yet `int("01") = 1` routes it to the
calculation-extraction instruction. -/
theorem c9_digit_counterexample :
    pyIsDigit "01" = true ∧
    ("01" : String) ≠ "1" ∧ ("01" : String) ≠ "2" ∧ ("01" : String) ≠ "3" ∧
    ("01" : String) ≠ "4" ∧ ("01" : String) ≠ "5" ∧ ("01" : String) ≠ "6" ∧
    handle_response [⟨"system", SYSTEM_PROMPT⟩, ⟨"user", "Q"⟩] Category.UNDEFINED.value false
        "01" =
      RouterStep.resend [⟨"system", prompt_calculation_extraction⟩, ⟨"user", "Q"⟩]
        Category.CALCULATION_BASED.value false :=
  ⟨by decide, by decide, by decide, by decide, by decide, by decide, by decide, rfl⟩

/-- C9, amended.  An all-digit classification reply routes onward exactly
when its integer value is 1 through 6 (so `"0"`, `"7"`, `"12"` raise the
diagnostic exception, because the instruction lookup yields the empty
string, but `"01"` routes like `"1"`). -/
theorem c9_digit_routing (m0 : ChatMessage) (rest : List ChatMessage) (r : String)
    (hd : pyIsDigit r = true) :
    (1 ≤ pyToNat r ∧ pyToNat r ≤ 6 →
      handle_response (m0 :: rest) Category.UNDEFINED.value false r =
        RouterStep.resend
          ({ m0 with content := get_altered_system_prompt (pyToNat r) false "" } :: rest)
          (pyToNat r) false) ∧
    (¬(1 ≤ pyToNat r ∧ pyToNat r ≤ 6) →
      handle_response (m0 :: rest) Category.UNDEFINED.value false r =
        RouterStep.raiseExc (unexpected_response_message r (pyToNat r) false)) := by
  constructor
  · intro hv
    have hne : get_altered_system_prompt (pyToNat r) false "" ≠ "" :=
      (get_altered_ne_empty_iff (pyToNat r)).mpr hv
    simp [handle_response, Category.value, hd, hne, set_system_content]
  · intro hv
    have heq : get_altered_system_prompt (pyToNat r) false "" = "" :=
      not_ne_iff.mp fun hc => hv ((get_altered_ne_empty_iff (pyToNat r)).mp hc)
    simp [handle_response, Category.value, hd, heq]

/-- C9, witness at the all-digit reply `"7"`. -/
theorem c9_digit_witness :
    handle_response [⟨"system", SYSTEM_PROMPT⟩, ⟨"user", "Q"⟩] Category.UNDEFINED.value false
        "7" =
      RouterStep.raiseExc "response_text: 7, system_prompt_category: 7, is_calculated: False" := by
  have h := (c9_digit_routing ⟨"system", SYSTEM_PROMPT⟩ [⟨"user", "Q"⟩] "7" rfl).2 (by decide)
  exact h.trans (by rfl)

/-! ## C1: the 4-digit formatting rounds, it does not truncate -/

/-- Four trailing zeros after the dot strip away, and the dot stops the
zero-stripping. -/
theorem pyRstripChar_zeros (y : List Char) :
    pyRstripChar '0' (y ++ ['.', '0', '0', '0', '0']) = y ++ ['.'] := by
  have h1 : y ++ ['.', '0', '0', '0', '0'] =
      ((((y ++ ['.']) ++ ['0']) ++ ['0']) ++ ['0']) ++ ['0'] := by simp
  rw [h1, pyRstripChar_append_same, pyRstripChar_append_same, pyRstripChar_append_same,
    pyRstripChar_append_same, pyRstripChar_append_ne _ _ _ (by decide)]

/-- No character of the fixed-point rendering is an ellipsis. -/
theorem ellipsis_not_mem_render (sgn : List Char) (hs : sgn = ['-'] ∨ sgn = [])
    (a b : Nat) : '…' ∉ (sgn ++ natRepr a ++ '.' :: pad4 b) := by
  intro hmem
  rcases List.mem_append.mp hmem with hmem | hmem
  · rcases List.mem_append.mp hmem with hmem | hmem
    · rcases hs with hs | hs <;> rw [hs] at hmem <;> simp at hmem
    · exact absurd (natRepr_mem_isDigit hmem) (by decide)
  · rcases List.mem_cons.mp hmem with hmem | hmem
    · exact absurd hmem (by decide)
    · unfold pad4 at hmem
      rcases List.mem_append.mp hmem with hmem | hmem
      · exact absurd (List.eq_of_mem_replicate hmem) (by decide)
      · exact absurd (natRepr_mem_isDigit hmem) (by decide)

/-- C1, counterexample.  The claim says fractional values are truncated,
never rounded: truncating the value of `2/3` to four fractional digits
gives digits `6666`, but the formatted output of `"[2/3]"` carries the
rounded digits `6667`. -/
theorem c1_truncation_counterexample :
    convert_arithmetic_expressions "[2/3]" = "2/3 = 0.6667…" ∧
    pyEvalStr "2/3" = Except.ok (PyVal.floatV (roundDouble (2 / 3))) ∧
    ratFloor (roundDouble (2 / 3 : ℚ) * 10000) = 6666 ∧
    ("2/3 = 0.6667…" : String) ≠ "2/3 = 0.6666…" :=
  ⟨rfl, rfl, by decide, by decide⟩

/-- C1, amended.  A fractional value is rounded (to nearest, Python's
`%.4f`) at four fractional digits, not truncated: the rendered 4-digit
decimal is within half a unit in the fourth place of the value, and the
ellipsis is appended exactly when the stripped decimal does not read back
(as a double) to the floating-point value; `10/3` formats as `3.3333…` and
`1/4` as `0.25`. -/
theorem c1_rounded_formatting :
    convert_arithmetic_expressions "[10/3]" = "10/3 = 3.3333…" ∧
    convert_arithmetic_expressions "[1/4]" = "1/4 = 0.25" ∧
    (∀ q : ℚ, |(roundHalfEven (q * 10000) : ℚ) / 10000 - q| ≤ 1 / 20000) ∧
    (∀ q : ℚ, pyEndsWith (pyFormatFloat q) "…" = false ↔
      roundDouble ((roundHalfEven (q * 10000) : ℚ) / 10000) = q) := by
  refine ⟨rfl, rfl, fun q => ?_, fun q => ?_⟩
  · have hb := roundHalfEven_abs_sub_le (q * 10000)
    have h2 : (roundHalfEven (q * 10000) : ℚ) / 10000 - q =
        ((roundHalfEven (q * 10000) : ℚ) - q * 10000) / 10000 := by ring
    rw [h2, abs_div, abs_of_pos (show (0 : ℚ) < 10000 by norm_num)]
    rw [div_le_iff₀ (show (0 : ℚ) < 10000 by norm_num)]
    linarith
  · have hmem : '…' ∉ pyRstripChar '.' (pyRstripChar '0'
        ((if q < 0 then ['-'] else []) ++
          natRepr ((roundHalfEven (q * 10000)).natAbs / 10000) ++
          '.' :: pad4 ((roundHalfEven (q * 10000)).natAbs % 10000))) := by
      intro hm
      exact ellipsis_not_mem_render _ (by split_ifs <;> simp) _ _
        (mem_pyRstripChar (mem_pyRstripChar hm))
    by_cases h : roundDouble ((roundHalfEven (q * 10000) : ℚ) / 10000) = q
    · simp only [pyFormatFloat, if_pos h]
      exact iff_of_true (pyEndsWith_ellipsis_false hmem) h
    · simp only [pyFormatFloat, if_neg h]
      exact iff_of_false (by simp [pyEndsWith_append_ellipsis]) h

/-- C1, witness at the value of `2/5` (rendered exactly, no ellipsis). -/
theorem c1_rounded_formatting_witness :
    pyEndsWith (pyFormatFloat (roundDouble (2 / 5 : ℚ))) "…" = false ∧
    |(roundHalfEven ((2 / 5 : ℚ) * 10000) : ℚ) / 10000 - 2 / 5| ≤ 1 / 20000 :=
  ⟨(c1_rounded_formatting.2.2.2 (roundDouble (2 / 5 : ℚ))).mpr (by decide),
    c1_rounded_formatting.2.2.1 (2 / 5 : ℚ)⟩

/-! ## C8: integer-valued results render as integers -/

/-- The formatted output of a float whose value is the integer `k` is the
plain integer rendering of `k`. -/
theorem pyFormatFloat_intValue (q : ℚ) (k : ℤ) (hd : isDouble q) (hk : q = (k : ℚ)) :
    pyFormatFloat q = intStr k := by
  subst hk
  unfold isDouble at hd
  have hcast : ((k : ℚ) * 10000) = ((k * 10000 : ℤ) : ℚ) := by push_cast; ring
  have hr : roundHalfEven ((k : ℚ) * 10000) = k * 10000 := by
    rw [hcast, roundHalfEven_intCast]
  have hm : (k * 10000).natAbs = k.natAbs * 10000 := by
    rw [Int.natAbs_mul]
    norm_num
  have hdiv : k.natAbs * 10000 / 10000 = k.natAbs := Nat.mul_div_cancel _ (by norm_num)
  have hmod : k.natAbs * 10000 % 10000 = 0 := Nat.mul_mod_left _ _
  have hpb : ((k * 10000 : ℤ) : ℚ) / 10000 = (k : ℚ) := by push_cast; ring
  simp only [pyFormatFloat, hr, hm, hdiv, hmod, hpb, hd, eq_self_iff_true, if_true]
  have hpad : pad4 0 = ['0', '0', '0', '0'] := by decide
  rw [hpad]
  rcases List.eq_nil_or_concat (natRepr k.natAbs) with hnil | ⟨L, b, hLb⟩
  · exact absurd hnil (natRepr_ne_nil _)
  · have hbmem : b ∈ natRepr k.natAbs := by
      rw [hLb, List.concat_eq_append]
      simp
    have hbdot : b ≠ '.' := by
      intro hb
      have := natRepr_mem_isDigit hbmem
      rw [hb] at this
      exact absurd this (by decide)
    rw [hLb, List.concat_eq_append]
    have hshape : ((if (k : ℚ) < 0 then ['-'] else []) ++ (L ++ [b]) ++
        '.' :: ['0', '0', '0', '0']) =
        (((if (k : ℚ) < 0 then ['-'] else []) ++ (L ++ [b])) ++ ['.', '0', '0', '0', '0']) := by
      simp
    rw [hshape, pyRstripChar_zeros, pyRstripChar_append_same]
    have hy : ((if (k : ℚ) < 0 then ['-'] else []) ++ (L ++ [b])) =
        ((if (k : ℚ) < 0 then ['-'] else []) ++ L) ++ [b] := by simp
    rw [hy, pyRstripChar_append_ne _ _ _ hbdot]
    unfold intStr
    rw [hLb, List.concat_eq_append]
    congr 1
    rw [← hy]
    congr 1
    simp only [Int.cast_lt_zero]

/-- C8, counterexample.  `(2**53+1)/1` has the exact integer value
`9007199254740993`, but true division passes through a float and the
validator renders `9007199254740992`: the output is an integer numeral yet
not the exact mathematical value. -/
theorem c8_integer_counterexample :
    convert_arithmetic_expressions "[(2**53+1)/1]" = "(2**53+1)/1 = 9007199254740992" ∧
    ((2 : ℤ) ^ 53 + 1 : ℤ) = 9007199254740993 ∧
    (9007199254740992 : ℤ) ≠ 9007199254740993 :=
  ⟨rfl, by norm_num, by norm_num⟩

/-- C8, amended.  A result that is an `int` renders as `str(int)`; a float
result whose value is the integer `k` renders as the plain integer numeral
of `k` (no decimal point, no ellipsis) — care: when true division leaves the
53-bit mantissa range, `k` is the float-rounded value, which can differ from
the exact mathematical value. -/
theorem c8_integer_rendering :
    (∀ (s : String) (n : ℤ), pyEvalStr (pyStrip s) = Except.ok (PyVal.intV n) →
      expr_result_line s = some (pyStrip s ++ " = " ++ intStr n)) ∧
    (∀ (q : ℚ) (k : ℤ), isDouble q → q = (k : ℚ) → pyFormatFloat q = intStr k) ∧
    (∀ n : ℤ, '.' ∉ (intStr n).data ∧ '…' ∉ (intStr n).data) := by
  refine ⟨fun s n h => ?_, pyFormatFloat_intValue, fun n => ⟨?_, ?_⟩⟩
  · simp [expr_result_line, h, formatResult]
  all_goals
    intro hmem
    unfold intStr at hmem
    rcases List.mem_append.mp hmem with hmem | hmem
  · split_ifs at hmem <;> simp at hmem
  · exact absurd (natRepr_mem_isDigit hmem) (by decide)
  · split_ifs at hmem <;> simp at hmem
  · exact absurd (natRepr_mem_isDigit hmem) (by decide)

/-- C8, witness at `1 + 2` (int path) and the float value `20`. -/
theorem c8_integer_witness :
    expr_result_line "1 + 2" = some "1 + 2 = 3" ∧ pyFormatFloat 20 = "20" := by
  constructor
  · exact (c8_integer_rendering.1 "1 + 2" 3 rfl).trans (by rfl)
  · exact (c8_integer_rendering.2.1 20 20 (by decide) (by norm_num)).trans (by rfl)

/-! ## C7: per-question failures become `Error: `-prefixed answers -/

/-- C7.  When the request pipeline raises with message `e`,
`get_mathbot_answer` returns the string `"Error: " ++ e` — a value starting
with the error marker, written by the batch loop into the same `MathBot`
column cell a successful answer would occupy — and no exception reaches the
caller. -/
theorem c7_error_channel (replies : List String) (question e : String)
    (h : run_request replies [⟨"system", SYSTEM_PROMPT⟩, ⟨"user", question⟩]
      Category.UNDEFINED.value false = Except.error e) :
    get_mathbot_answer replies question = "Error: " ++ e ∧
    pyStartsWith (get_mathbot_answer replies question) "Error: " = true ∧
    (question ≠ "" →
      write_mathbot_answers_updates (get_mathbot_answer replies) [question] [] 1 =
        [(0, get_mathbot_answer replies question)]) := by
  have hg : get_mathbot_answer replies question = "Error: " ++ e := by
    simp [get_mathbot_answer, h]
  refine ⟨hg, ?_, fun hq => ?_⟩
  · rw [hg]
    exact pyStartsWith_error_prefix e
  · simp [write_mathbot_answers_updates, write_loop, hq, should_skip]

/-- C7, witness at a non-digit classification reply. -/
theorem c7_error_channel_witness :
    get_mathbot_answer ["not a digit"] "Q" =
      "Error: response_text: not a digit, system_prompt_category: 0, is_calculated: False" ∧
    write_mathbot_answers_updates (get_mathbot_answer ["not a digit"]) ["Q"] [] 1 =
      [(0, "Error: response_text: not a digit, system_prompt_category: 0, is_calculated: False")] := by
  have h := c7_error_channel ["not a digit"] "Q"
    "response_text: not a digit, system_prompt_category: 0, is_calculated: False" rfl
  refine ⟨h.1.trans (by rfl), ?_⟩
  have h2 := h.2.2 (by decide)
  rw [h2, h.1]
  rfl

/-! ## C6: the batch skip test strips before checking the error marker -/

/-- C6, counterexample.  The stored answer `" Error: old"` is non-blank and
does not start with `"Error: "`, so the claim says the row is skipped; the
code strips the cell first and resubmits it. -/
theorem c6_skip_counterexample :
    pyStrip " Error: old" ≠ "" ∧
    pyStartsWith " Error: old" "Error: " = false ∧
    should_skip (some " Error: old") = false ∧
    write_mathbot_answers_updates (fun q => q ++ "!") ["q1"] [" Error: old"] 10 =
      [(0, "q1!")] :=
  ⟨by decide, rfl, rfl, rfl⟩

/-- C6, amended.  A row with a stored answer is skipped iff the stored text,
stripped of surrounding whitespace, is nonempty and does not start with
`"Error: "`; otherwise the question is resubmitted and its cell rewritten. -/
theorem c6_skip_logic (s q : String) (oracle : String → String) (max_num : Nat)
    (hq : q ≠ "") (hm : 0 < max_num) :
    (should_skip (some s) = true ↔
      (pyStrip s ≠ "" ∧ pyStartsWith (pyStrip s) "Error: " = false)) ∧
    write_mathbot_answers_updates oracle [q] [s] max_num =
      (if should_skip (some s) = true then [] else [(0, oracle q)]) := by
  constructor
  · simp [should_skip, Bool.and_eq_true, Bool.not_eq_true', string_ne_empty_iff,
      List.isEmpty_iff]
  · by_cases hsk : should_skip (some s) = true <;>
      simp [write_mathbot_answers_updates, write_loop, hq, hm, hsk]

/-- C6, witness at a stored `"Error: old"` cell (resubmitted). -/
theorem c6_skip_logic_witness :
    write_mathbot_answers_updates (fun q => q) ["q1"] ["Error: old"] 1 = [(0, "q1")] := by
  have h := (c6_skip_logic "Error: old" "q1" (fun q => q) 1 (by decide) (by decide)).2
  rw [h, if_neg (by decide)]

/-! ## C5: the standalone equation form (spec-modelled) -/

/-- Splitting at the first `=` recovers the two sides when the left side
carries none. -/
theorem splitFirstEq_append (lhsL rhsL : List Char) (h : '=' ∉ lhsL) :
    splitFirstEq (lhsL ++ '=' :: rhsL) = some (lhsL, rhsL) := by
  induction lhsL with
  | nil => simp [splitFirstEq]
  | cons c t ih =>
    have hc : c ≠ '=' := fun he => h (he ▸ List.mem_cons_self c t)
    have ht : '=' ∉ t := fun hm => h (List.mem_cons_of_mem c hm)
    simp [splitFirstEq, hc, ih ht]

/-- C5.  For `lhs=rhs`: the input comes back unchanged when `lhs` alone is
already a numeral or when `rhs` is not a plain signed numeral; otherwise the
validator recomputes `lhs` and overwrites `rhs` with its own formatted
result, whatever `rhs` said. -/
theorem c5_equation_form (lhsL rhsL : List Char) (hne : '=' ∉ lhsL) :
    (isPlainNumeral (String.mk lhsL) = true →
      convert_equation (String.mk (lhsL ++ '=' :: rhsL)) = String.mk (lhsL ++ '=' :: rhsL)) ∧
    (isPlainNumeral (String.mk rhsL) = false →
      convert_equation (String.mk (lhsL ++ '=' :: rhsL)) = String.mk (lhsL ++ '=' :: rhsL)) ∧
    (∀ (v : PyVal) (formatted : String),
      isPlainNumeral (String.mk lhsL) = false → isPlainNumeral (String.mk rhsL) = true →
      pyEvalStr (String.mk lhsL) = Except.ok v → formatResult v = some formatted →
      convert_equation (String.mk (lhsL ++ '=' :: rhsL)) =
        String.mk lhsL ++ "=" ++ formatted) := by
  have hsp : splitFirstEq (String.mk (lhsL ++ '=' :: rhsL)).data = some (lhsL, rhsL) :=
    splitFirstEq_append lhsL rhsL hne
  refine ⟨fun h1 => ?_, fun h2 => ?_, fun v f h1 h2 h3 h4 => ?_⟩
  · simp [convert_equation, hsp, h1]
  · by_cases hl : isPlainNumeral (String.mk lhsL) <;>
      simp [convert_equation, hsp, hl, h2]
  · simp [convert_equation, hsp, h1, h2, h3, h4]

/-- C5, witness: a wrong `rhs` is overwritten, a numeric `lhs` and a
non-numeral `rhs` are left alone. -/
theorem c5_equation_form_witness :
    convert_equation "1+2=4" = "1+2=3" ∧ convert_equation "3=3" = "3=3" ∧
    convert_equation "1+2=x" = "1+2=x" := by
  refine ⟨?_, ?_, ?_⟩
  · exact ((c5_equation_form "1+2".data "4".data (by decide)).2.2 (PyVal.intV 3) "3"
      rfl rfl rfl rfl).trans (by rfl)
  · exact (c5_equation_form "3".data "3".data (by decide)).1 rfl
  · exact (c5_equation_form "1+2".data "x".data (by decide)).2.1 rfl

end MathBot
